import Mathlib

/-!
Shallow embedding of the checkout/coupon reconciliation core of the
e-commerce backend (`backend/controllers/payment.js`).

Modelling conventions:
* The Mongo document store is an explicit `Store` value (coupons, orders,
  and a counter supplying fresh order ids in place of Mongo ObjectIds).
* The Stripe gateway is explicit: `checkoutSuccess` receives a
  `retrieve : String → Option StripeSession` map (a `none` result models
  the gateway throwing for an unknown session, which the handler turns
  into a 500); `createCheckoutSession` receives the id the gateway would
  assign to the created session, and its outcome records the session
  creation request that was sent (`none` when the gateway was never
  called).
* JS numbers are rationals (`ℚ`); `Math.round` is Mathlib's `round`
  (round half towards positive infinity, exactly JS semantics).
* `JSON.stringify`/`JSON.parse` of the products snapshot is modelled as
  the identity on the structured `SnapshotItem` list: the string is
  produced and consumed only by this code, round-tripping exactly.
* `Math.random()` together with the wall clock are explicit parameters
  (`randStr` is the string `Math.random().toString(36)` evaluates to;
  `now` the epoch milliseconds).
* A JS field that may be `undefined` is an `Option`; JS truthiness of
  strings and numbers is modelled where the source relies on it
  (`couponCode` guard, `product.quantity || 1`).
-/

/-- A coupon document (`models/cupon.js`): code, owning user,
discount percentage, active flag, expiration timestamp (ms). -/
structure Coupon where
  code : String
  userId : String
  discountPercentage : ℚ
  isActive : Bool
  expirationDate : Int
deriving Repr, DecidableEq

/-- One `{product, quantity, price}` entry of an order document. -/
structure OrderItem where
  product : Option String
  quantity : Option Nat
  price : ℚ
deriving Repr, DecidableEq

/-- An order document: owning user, line items, total amount in major
currency units, and the Stripe session id it was reconciled from. -/
structure Order where
  _id : Nat
  user : String
  products : List OrderItem
  totalAmount : ℚ
  stripeSessionId : String
deriving Repr, DecidableEq

/-- The document store: coupon and order collections, plus the counter
standing in for Mongo ObjectId generation on order insert. -/
structure Store where
  coupons : List Coupon
  orders : List Order
  nextOrderId : Nat
deriving Repr, DecidableEq

/-- One `{id, quantity, price}` entry of the products snapshot placed in
the session metadata at session-creation time. -/
structure SnapshotItem where
  id : Option String
  quantity : Option Nat
  price : ℚ
deriving Repr, DecidableEq

/-- The metadata bag attached to a checkout session. -/
structure SessionMetadata where
  userId : String
  couponCode : String
  products : List SnapshotItem
deriving Repr, DecidableEq

/-- The gateway's view of a checkout session, as returned by
`stripe.checkout.sessions.retrieve`. -/
structure StripeSession where
  payment_status : String
  amount_total : Int
  metadata : SessionMetadata
deriving Repr, DecidableEq

/-- A client-submitted cart line item. The JSDoc of the handler documents
the shape `{id, quantity, price}`, but the metadata snapshot reads the
Mongo-style `_id` field; the model carries both, each possibly absent. -/
structure CartItem where
  _id : Option String
  id : Option String
  name : String
  image : String
  price : ℚ
  quantity : Option Nat
deriving Repr, DecidableEq

/-- The body of a POST `/payments/checkout` request together with the
authenticated user. `products = none` models a body whose `products`
field is not an array (so `Array.isArray` fails). -/
structure CheckoutRequest where
  products : Option (List CartItem)
  couponCode : Option String
  userId : String
deriving Repr, DecidableEq

/-- The `product_data` part of a Stripe line item descriptor. -/
structure ProductData where
  name : String
  images : List String
deriving Repr, DecidableEq

/-- The `price_data` part of a Stripe line item descriptor;
`unit_amount` is in minor currency units (paisa). -/
structure PriceData where
  currency : String
  product_data : ProductData
  unit_amount : Int
deriving Repr, DecidableEq

/-- A Stripe line item descriptor. -/
structure LineItem where
  price_data : PriceData
  quantity : Nat
deriving Repr, DecidableEq

/-- The request sent to `stripe.checkout.sessions.create`: line items,
mode, redirect URLs, the percent-off values of the requested discount
objects, and the reconciliation metadata. -/
structure SessionCreateParams where
  line_items : List LineItem
  mode : String
  success_url : String
  cancel_url : String
  discounts : List ℚ
  metadata : SessionMetadata
deriving Repr, DecidableEq

/-- The JSON response of the checkout endpoint: HTTP status, session id
and total amount (major units) on success, error text on failure. -/
structure CheckoutResponse where
  status : Nat
  id : Option String
  totalAmount : Option ℚ
  error : Option String
deriving Repr, DecidableEq

/-- Everything observable about one `createCheckoutSession` invocation:
the updated store, the HTTP response, the gateway session-creation
request (`none` when the gateway was not called), the coupon minted via
`createNewCoupon` (`none` when it was not invoked), and the value of the
running `totalAmount` variable at the reward check (`none` on the early
validation return, before the variable exists). -/
structure CheckoutOutcome where
  state : Store
  response : CheckoutResponse
  gatewayRequest : Option SessionCreateParams
  mintedCoupon : Option Coupon
  computedTotal : Option ℚ
deriving Repr, DecidableEq

/-- The JSON response of the checkout-success endpoint; `none` at the
call site models the handler falling through without sending anything. -/
structure SuccessBody where
  status : Nat
  success : Bool
  orderId : Option Nat
  message : String
deriving Repr, DecidableEq

/-- JS `s || d` for an optional string field: `undefined` falls back. An
empty string is falsy in JS, but `"" || ""` is `""` again, so the model
coincides with `getD` at the one place the source uses this. -/
def jsOrEmpty (o : Option String) : String :=
  match o with
  | some s => s
  | none => ""

/-- JS truthiness of the optional string `couponCode`: present and
non-empty. -/
def jsTruthyStr (o : Option String) : Bool :=
  match o with
  | some s => s ≠ ""
  | none => false

/-- JS `product.quantity || 1`: an absent or zero quantity falls back
to 1 (0 is falsy in JS). -/
def jsOrOne (q : Option Nat) : Nat :=
  match q with
  | some n => if n = 0 then 1 else n
  | none => 1

/-- `Coupon.findOne({code, userId, isActive: true})`: first coupon in
the collection matching all three fields. -/
def findActiveCoupon (code userId : String) (coupons : List Coupon) : Option Coupon :=
  coupons.find? (fun c => c.code == code && c.userId == userId && c.isActive)

/-- `Coupon.findOneAndUpdate({code, userId}, {isActive: false})`: set
`isActive := false` on the first coupon matching code and userId. -/
def deactivateCoupon (code userId : String) : List Coupon → List Coupon
  | [] => []
  | c :: cs =>
    if c.code == code && c.userId == userId then
      { c with isActive := false } :: cs
    else
      c :: deactivateCoupon code userId cs

/-- `Coupon.findOneAndDelete({userId})`: remove the first coupon owned
by the user. -/
def deleteCouponByUser (userId : String) : List Coupon → List Coupon
  | [] => []
  | c :: cs => if c.userId == userId then cs else c :: deleteCouponByUser userId cs

/-- JS `String.prototype.substring(2, 8)`: characters at indices 2
through 7, gracefully shorter when the string ends early. -/
def substring28 (s : String) : String :=
  String.mk ((s.toList.drop 2).take 6)

/-- JS `String.prototype.toUpperCase` on the base36 alphabet. -/
def toUpperString (s : String) : String :=
  String.mk (s.toList.map Char.toUpper)

/-- The digit character of base-36 digit `n`: `0`–`9` then `a`–`z`,
as produced by JS `Number.prototype.toString(36)`. -/
def base36digitChar (n : Nat) : Char :=
  if n < 10 then Char.ofNat (48 + n) else Char.ofNat (87 + n)

/-- Fractional base-36 digits of a rational in `[0, 1)`, stopping when
the expansion terminates (fuel-bounded to stay structural). -/
def base36fracDigits (q : ℚ) : Nat → List Nat
  | 0 => []
  | fuel + 1 =>
    if q = 0 then []
    else
      let d := (⌊q * 36⌋).toNat
      d :: base36fracDigits (q * 36 - d) fuel

/-- JS `Number.prototype.toString(36)` for a value in `[0, 1)` whose
base-36 expansion terminates within the printed precision (every double
has a terminating base-36 expansion; JS prints it in full when it is
short, which is the regime the theorems below evaluate). -/
def jsToString36 (q : ℚ) : String :=
  if q = 0 then "0"
  else "0." ++ String.mk ((base36fracDigits q 20).map base36digitChar)

/-- `createNewCoupon(userId)`: delete any existing coupon for the user,
then insert a fresh one with code `"GIFT" +
Math.random().toString(36).substring(2, 8).toUpperCase()`, 10 percent
discount, expiration 30 days out. `randStr` is the string the
`Math.random().toString(36)` call evaluated to; the coupon model's
schema defaults the active flag of a new coupon to `true`. Returns the
new coupon and the updated collection. -/
def createNewCoupon (userId : String) (now : Int) (randStr : String)
    (coupons : List Coupon) : Coupon × List Coupon :=
  let afterDelete := deleteCouponByUser userId coupons
  let newCoupon : Coupon :=
    { code := "GIFT" ++ toUpperString (substring28 randStr)
      userId := userId
      discountPercentage := 10
      isActive := true
      expirationDate := now + 30 * 24 * 60 * 60 * 1000 }
  (newCoupon, afterDelete ++ [newCoupon])

/-- The line item descriptor built for each product in
`createCheckoutSession`: `unit_amount = Math.round(price * 100)`
(rupees to paisa), `quantity = product.quantity || 1`. -/
def buildLineItems (products : List CartItem) : List LineItem :=
  products.map (fun product =>
    let amount := round (product.price * 100)
    { price_data :=
        { currency := "inr"
          product_data := { name := product.name, images := [product.image] }
          unit_amount := amount }
      quantity := jsOrOne product.quantity })

/-- The products snapshot serialized into the session metadata:
`{id: p._id, quantity: p.quantity, price: p.price}` per product. -/
def buildSnapshot (products : List CartItem) : List SnapshotItem :=
  products.map (fun p => { id := p._id, quantity := p.quantity, price := p.price })

/-- The coupon lookup step of `createCheckoutSession`: only a truthy
(present, non-empty) `couponCode` triggers the `findOne` query. -/
def couponLookup (req : CheckoutRequest) (st : Store) : Option Coupon :=
  if jsTruthyStr req.couponCode then
    findActiveCoupon (jsOrEmpty req.couponCode) req.userId st.coupons
  else none

/-- The discount step of `createCheckoutSession`: when a coupon was
found, `totalAmount -= Math.round(totalAmount * discountPercentage /
100)`; otherwise the total is left alone. -/
def applyCouponDiscount (totalAmount : ℚ) (coupon : Option Coupon) : ℚ :=
  match coupon with
  | some c => totalAmount - (round (totalAmount * c.discountPercentage / 100) : ℤ)
  | none => totalAmount

/-- `createCheckoutSession(req, res)`. Validates the products array,
builds line items, looks up the coupon, applies the discount to the
running total, sends the session-creation request, mints a reward coupon
when the total reaches 20000, and responds with the session id and the
total in major units. `newSessionId` is the id the gateway assigns;
`now`/`randStr` feed `createNewCoupon` should it run. -/
def createCheckoutSession (req : CheckoutRequest) (st : Store)
    (newSessionId clientUrl : String) (now : Int) (randStr : String) : CheckoutOutcome :=
  match req.products with
  | none =>
    { state := st
      response := { status := 400, id := none, totalAmount := none
                    error := some "Invalid or empty products array" }
      gatewayRequest := none, mintedCoupon := none, computedTotal := none }
  | some products =>
    if products.isEmpty then
      { state := st
        response := { status := 400, id := none, totalAmount := none
                      error := some "Invalid or empty products array" }
        gatewayRequest := none, mintedCoupon := none, computedTotal := none }
    else
      let totalAmount0 : ℚ := 0
      let lineItems := buildLineItems products
      let coupon : Option Coupon := couponLookup req st
      let totalAmount : ℚ := applyCouponDiscount totalAmount0 coupon
      let params : SessionCreateParams :=
        { line_items := lineItems
          mode := "payment"
          success_url := clientUrl ++ "/purchase-success?session_id=\x7bCHECKOUT_SESSION_ID\x7d"
          cancel_url := clientUrl ++ "/purchase-cancel"
          discounts := match coupon with
            | some c => [c.discountPercentage]
            | none => []
          metadata :=
            { userId := req.userId
              couponCode := jsOrEmpty req.couponCode
              products := buildSnapshot products } }
      let minted : Option Coupon × List Coupon :=
        if 20000 ≤ totalAmount then
          let r := createNewCoupon req.userId now randStr st.coupons
          (some r.1, r.2)
        else (none, st.coupons)
      { state := { coupons := minted.2, orders := st.orders, nextOrderId := st.nextOrderId }
        response := { status := 200, id := some newSessionId
                      totalAmount := some (totalAmount / 100), error := none }
        gatewayRequest := some params
        mintedCoupon := minted.1
        computedTotal := some totalAmount }

/-- The order document `checkoutSuccess` inserts for a paid session:
items copied from the frozen metadata snapshot, total equal to the
gateway's `amount_total / 100`, tagged with the session id. -/
def reconcileOrder (oid : Nat) (sess : StripeSession) (sessionId : String) : Order :=
  { _id := oid
    user := sess.metadata.userId
    products := sess.metadata.products.map (fun product =>
      { product := product.id, quantity := product.quantity, price := product.price })
    totalAmount := (sess.amount_total : ℚ) / 100
    stripeSessionId := sessionId }

/-- `checkoutSuccess(req, res)`. Retrieves the session; on
`payment_status === "paid"` deactivates the metadata coupon (when the
code is truthy), inserts a new order built from the metadata snapshot,
and responds 200; on any other status it falls through sending nothing;
a gateway failure (unknown session) is caught and answered 500. -/
def checkoutSuccess (retrieve : String → Option StripeSession) (st : Store)
    (sessionId : String) : Store × Option SuccessBody :=
  match retrieve sessionId with
  | none =>
    (st, some { status := 500, success := false, orderId := none
                message := "Error processing successful checkout" })
  | some session =>
    if session.payment_status = "paid" then
      let coupons1 :=
        if session.metadata.couponCode ≠ "" then
          deactivateCoupon session.metadata.couponCode session.metadata.userId st.coupons
        else st.coupons
      let newOrder := reconcileOrder st.nextOrderId session sessionId
      ({ coupons := coupons1
         orders := st.orders ++ [newOrder]
         nextOrderId := st.nextOrderId + 1 },
       some { status := 200, success := true, orderId := some newOrder._id
              message := "Payment successful, order created, and coupon deactivated if used." })
    else
      (st, none)

/-- The line item descriptor shape asserted by the specification, for
comparison with `buildLineItems`: unit amount `round(price * 100)` minor
units, quantity the item's own quantity when present and 1 otherwise. -/
def specLineItem (p : CartItem) : LineItem :=
  { price_data :=
      { currency := "inr"
        product_data := { name := p.name, images := [p.image] }
        unit_amount := round (p.price * 100) }
    quantity := p.quantity.getD 1 }

/-! ### Concrete sample data used by the witnesses -/

/-- An active 10 percent coupon owned by user `u1`. -/
def exCoupon : Coupon :=
  { code := "C10", userId := "u1", discountPercentage := 10
    isActive := true, expirationDate := 999 }

/-- A cart line item: 2 units of a 50-rupee product. -/
def exItem : CartItem :=
  { _id := some "p1", id := some "x1", name := "tea", image := "tea.png"
    price := 50, quantity := some 2 }

/-- A checkout request from `u1` carrying one item and the coupon. -/
def exReq : CheckoutRequest :=
  { products := some [exItem], couponCode := some "C10", userId := "u1" }

/-- A checkout request whose `products` field is not an array. -/
def exBadReq : CheckoutRequest :=
  { products := none, couponCode := none, userId := "u1" }

/-- A store holding the coupon and no orders; the next order id is 7. -/
def exStore : Store :=
  { coupons := [exCoupon], orders := [], nextOrderId := 7 }

/-- A paid gateway session for `u1` with coupon `C10` and a one-item
snapshot; the gateway-computed total is 10000 paisa. -/
def exSession : StripeSession :=
  { payment_status := "paid"
    amount_total := 10000
    metadata :=
      { userId := "u1", couponCode := "C10"
        products := [{ id := some "p1", quantity := some 2, price := 50 }] } }

/-- The same session, still unpaid. -/
def exUnpaidSession : StripeSession :=
  { payment_status := "unpaid"
    amount_total := 10000
    metadata :=
      { userId := "u1", couponCode := "C10"
        products := [{ id := some "p1", quantity := some 2, price := 50 }] } }

/-- A gateway in which every session id resolves to `exSession`. -/
def exRetrieve : String → Option StripeSession :=
  fun _ => some exSession

/-- A gateway in which every session id resolves to the unpaid session. -/
def exRetrieveUnpaid : String → Option StripeSession :=
  fun _ => some exUnpaidSession

/-! ### Helper lemmas -/

/-- Discounting a zero running total is a no-op: both branches of the
discount step return 0 when the total going in is 0. -/
theorem applyCouponDiscount_zero (coupon : Option Coupon) :
    applyCouponDiscount 0 coupon = 0 := by
  cases coupon with
  | none => rfl
  | some c => simp [applyCouponDiscount]

/-- On a valid (non-empty array) products field, `createCheckoutSession`
leaves the store untouched, mints nothing, computes a zero running
total, and responds 200 with total 0. -/
theorem createCheckoutSession_valid (req : CheckoutRequest) (st : Store)
    (sid curl : String) (now : Int) (r : String) (ps : List CartItem)
    (hps : req.products = some ps) (hne : ps.isEmpty = false) :
    createCheckoutSession req st sid curl now r =
      { state := st
        response := { status := 200, id := some sid, totalAmount := some 0, error := none }
        gatewayRequest := some
          { line_items := buildLineItems ps
            mode := "payment"
            success_url := curl ++ "/purchase-success?session_id=\x7bCHECKOUT_SESSION_ID\x7d"
            cancel_url := curl ++ "/purchase-cancel"
            discounts := match couponLookup req st with
              | some c => [c.discountPercentage]
              | none => []
            metadata :=
              { userId := req.userId
                couponCode := jsOrEmpty req.couponCode
                products := buildSnapshot ps } }
        mintedCoupon := none
        computedTotal := some 0 } := by
  have htot : applyCouponDiscount 0 (couponLookup req st) = 0 :=
    applyCouponDiscount_zero _
  simp only [createCheckoutSession, hps, hne, Bool.false_eq_true, if_false, htot]
  norm_num

/-- On an invalid products field (`none` models a non-array value),
`createCheckoutSession` immediately returns the 400 outcome. -/
theorem createCheckoutSession_none (req : CheckoutRequest) (st : Store)
    (sid curl : String) (now : Int) (r : String) (hps : req.products = none) :
    createCheckoutSession req st sid curl now r =
      { state := st
        response := { status := 400, id := none, totalAmount := none
                      error := some "Invalid or empty products array" }
        gatewayRequest := none, mintedCoupon := none, computedTotal := none } := by
  simp only [createCheckoutSession, hps]

/-- On an empty products array `createCheckoutSession` immediately
returns the 400 outcome. -/
theorem createCheckoutSession_nil (req : CheckoutRequest) (st : Store)
    (sid curl : String) (now : Int) (r : String) (hps : req.products = some []) :
    createCheckoutSession req st sid curl now r =
      { state := st
        response := { status := 400, id := none, totalAmount := none
                      error := some "Invalid or empty products array" }
        gatewayRequest := none, mintedCoupon := none, computedTotal := none } := by
  simp only [createCheckoutSession, hps, List.isEmpty_nil, if_true]

/-- Under the ledger invariant (pairwise distinct owners),
`findOneAndUpdate` leaves no active coupon matching the code and user:
the first match is the only match, and it is deactivated. -/
theorem deactivateCoupon_inactive (code uid : String) :
    ∀ l : List Coupon, l.Pairwise (fun a b => a.userId ≠ b.userId) →
      ∀ c ∈ deactivateCoupon code uid l, c.code = code → c.userId = uid →
        c.isActive = false := by
  intro l
  induction l with
  | nil =>
    intro _ c hc
    simp [deactivateCoupon] at hc
  | cons a as ih =>
    intro hp c hc hcode huid
    rw [List.pairwise_cons] at hp
    obtain ⟨ha, has⟩ := hp
    by_cases hmatch : (a.code == code && a.userId == uid) = true
    · rw [deactivateCoupon, if_pos hmatch] at hc
      rcases List.mem_cons.mp hc with h1 | h2
      · rw [h1]
      · simp only [Bool.and_eq_true, beq_iff_eq] at hmatch
        exact absurd (hmatch.2.trans huid.symm) (ha c h2)
    · rw [deactivateCoupon, if_neg hmatch] at hc
      rcases List.mem_cons.mp hc with h1 | h2
      · exfalso
        apply hmatch
        subst h1
        simp [hcode, huid]
      · exact ih has c h2 hcode huid

/-- After `findOneAndDelete({userId})` on a ledger with pairwise
distinct owners, no coupon owned by that user remains. -/
theorem deleteCouponByUser_not_owner (uid : String) :
    ∀ l : List Coupon, l.Pairwise (fun a b => a.userId ≠ b.userId) →
      ∀ c ∈ deleteCouponByUser uid l, c.userId ≠ uid := by
  intro l
  induction l with
  | nil =>
    intro _ c hc
    simp [deleteCouponByUser] at hc
  | cons a as ih =>
    intro hp c hc
    rw [List.pairwise_cons] at hp
    obtain ⟨ha, has⟩ := hp
    by_cases hmatch : (a.userId == uid) = true
    · rw [deleteCouponByUser, if_pos hmatch] at hc
      rw [beq_iff_eq] at hmatch
      intro hcu
      exact ha c hc (hmatch.trans hcu.symm)
    · rw [deleteCouponByUser, if_neg hmatch] at hc
      rcases List.mem_cons.mp hc with h1 | h2
      · rw [beq_iff_eq] at hmatch
        rw [h1]
        exact hmatch
      · exact ih has c h2

/-- `findOneAndDelete` only removes an element: the result is a sublist
of the collection. -/
theorem deleteCouponByUser_sublist (uid : String) (l : List Coupon) :
    List.Sublist (deleteCouponByUser uid l) l := by
  induction l with
  | nil => simp [deleteCouponByUser]
  | cons a as ih =>
    rw [deleteCouponByUser]
    by_cases h : (a.userId == uid) = true
    · rw [if_pos h]
      exact List.sublist_cons_self a as
    · rw [if_neg h]
      exact List.Sublist.cons₂ a ih

/-- Unfolding of `checkoutSuccess` on a paid session: the coupon step
runs when the metadata coupon code is truthy, the reconciled order is
appended, and the 200 body is sent. -/
theorem checkoutSuccess_paid (retrieve : String → Option StripeSession)
    (st : Store) (s : String) (sess : StripeSession)
    (hret : retrieve s = some sess) (hpaid : sess.payment_status = "paid") :
    checkoutSuccess retrieve st s =
      ({ coupons :=
           if sess.metadata.couponCode ≠ "" then
             deactivateCoupon sess.metadata.couponCode sess.metadata.userId st.coupons
           else st.coupons
         orders := st.orders ++ [reconcileOrder st.nextOrderId sess s]
         nextOrderId := st.nextOrderId + 1 },
       some { status := 200, success := true, orderId := some st.nextOrderId
              message := "Payment successful, order created, and coupon deactivated if used." }) := by
  simp only [checkoutSuccess, hret, hpaid, if_true, reconcileOrder]

/-- Unfolding of `checkoutSuccess` on a session whose status is not
`"paid"`: the handler falls through, leaving the store alone and
sending no response. -/
theorem checkoutSuccess_unpaid (retrieve : String → Option StripeSession)
    (st : Store) (s : String) (sess : StripeSession)
    (hret : retrieve s = some sess) (hnot : sess.payment_status ≠ "paid") :
    checkoutSuccess retrieve st s = (st, none) := by
  simp only [checkoutSuccess, hret, hnot, if_false]

/-- `createNewCoupon` preserves the ledger invariant: if coupon owners
were pairwise distinct, they still are after the delete-then-insert. -/
theorem createNewCoupon_pairwise (u : String) (now : Int) (randStr : String)
    (cs : List Coupon) (h : cs.Pairwise (fun a b => a.userId ≠ b.userId)) :
    ((createNewCoupon u now randStr cs).2).Pairwise (fun a b => a.userId ≠ b.userId) := by
  rw [createNewCoupon]
  simp only
  rw [List.pairwise_append]
  refine ⟨h.sublist (deleteCouponByUser_sublist u cs), List.pairwise_singleton _ _, ?_⟩
  intro a ha b hb
  rw [List.mem_singleton] at hb
  rw [hb]
  exact deleteCouponByUser_not_owner u cs h a ha

/-- After `createNewCoupon`, the user's coupons are exactly the freshly
minted one (given the ledger invariant beforehand): the prior coupon is
gone and the new one is present. -/
theorem createNewCoupon_user_coupons (u : String) (now : Int) (randStr : String)
    (cs : List Coupon) (h : cs.Pairwise (fun a b => a.userId ≠ b.userId)) :
    ((createNewCoupon u now randStr cs).2).filter (fun c => c.userId == u)
      = [(createNewCoupon u now randStr cs).1] := by
  rw [createNewCoupon]
  simp only
  rw [List.filter_append]
  have h1 : (deleteCouponByUser u cs).filter (fun c => c.userId == u) = [] := by
    rw [List.filter_eq_nil_iff]
    intro a ha
    simpa using deleteCouponByUser_not_owner u cs h a ha
  rw [h1]
  simp

/-- The base-36 fractional expansion of 1/2 is the single digit 18:
`(0.5).toString(36)` prints as `"0.i"`. -/
theorem base36fracDigits_half : base36fracDigits (1/2) 20 = [18] := by
  rw [base36fracDigits]
  rw [if_neg (by norm_num)]
  have e1 : ((1:ℚ)/2) * 36 = 18 := by norm_num
  simp only [e1]
  have e2 : (⌊(18:ℚ)⌋ : ℤ) = 18 := by norm_num
  simp only [e2]
  norm_num
  rw [base36fracDigits]
  simp

/-- `Math.random()` can return 0.5, whose base-36 rendering is `"0.i"`. -/
theorem jsToString36_half : jsToString36 (1/2) = "0.i" := by
  rw [jsToString36, if_neg (by norm_num : ¬((1:ℚ)/2 = 0)), base36fracDigits_half]
  rfl

/-- `substring(2, 8)` never yields more than 6 characters. -/
theorem substring28_length_le (s : String) : (substring28 s).length ≤ 6 := by
  rw [substring28, String.length_mk]
  exact le_trans (List.length_take_le 6 _) (le_refl 6)

/-- When no item carries a literal quantity of 0 (the spec's cart line
items have positive quantities), the built line items are exactly the
spec-shaped descriptors. -/
theorem buildLineItems_eq_spec (ps : List CartItem)
    (hq : ∀ p ∈ ps, p.quantity ≠ some 0) :
    buildLineItems ps = ps.map specLineItem := by
  induction ps with
  | nil => rfl
  | cons a as ih =>
    have ha : a.quantity ≠ some 0 := hq a (List.mem_cons_self a as)
    have has : ∀ p ∈ as, p.quantity ≠ some 0 :=
      fun p hp => hq p (List.mem_cons_of_mem a hp)
    rw [buildLineItems, List.map_cons, List.map_cons]
    rw [buildLineItems] at ih
    rw [ih has]
    have hquant : jsOrOne a.quantity = a.quantity.getD 1 := by
      cases hcase : a.quantity with
      | none => rfl
      | some n =>
        have hn : n ≠ 0 := by
          intro h0
          exact ha (by rw [hcase, h0])
        simp [jsOrOne, hn]
    simp only [specLineItem, hquant]

/-! ### Claims -/

/-- C3: for every request with a non-empty products array (and any
coupon situation), the discount in `createCheckoutSession` is subtracted
from a running total that is still 0, so the total the endpoint returns
is 0 regardless of the products or coupon supplied. -/
theorem createCheckoutSession_discount_noop (req : CheckoutRequest) (st : Store)
    (sid curl : String) (now : Int) (r : String) (ps : List CartItem)
    (hps : req.products = some ps) (hne : ps ≠ []) :
    (createCheckoutSession req st sid curl now r).response.totalAmount = some 0 ∧
    (createCheckoutSession req st sid curl now r).computedTotal = some 0 := by
  have hne2 : ps.isEmpty = false := by
    cases ps with
    | nil => exact absurd rfl hne
    | cons a as => rfl
  rw [createCheckoutSession_valid req st sid curl now r ps hps hne2]
  exact ⟨rfl, rfl⟩

/-- Witness for C3 at a concrete one-item request with a live coupon. -/
theorem createCheckoutSession_discount_noop_witness :
    (createCheckoutSession exReq exStore "cs_1" "http://client" 0 "0.abc123").response.totalAmount
      = some 0 ∧
    (createCheckoutSession exReq exStore "cs_1" "http://client" 0 "0.abc123").computedTotal
      = some 0 :=
  createCheckoutSession_discount_noop exReq exStore "cs_1" "http://client" 0 "0.abc123"
    [exItem] rfl (by simp)

/-- C4: on every request, the running total at the reward check is at
most 0 (it starts at 0 and is only ever decremented), so the 20000
threshold never fires: no reward coupon is ever minted through the
checkout endpoint and the store is left untouched. -/
theorem createCheckoutSession_never_mints (req : CheckoutRequest) (st : Store)
    (sid curl : String) (now : Int) (r : String) :
    (createCheckoutSession req st sid curl now r).mintedCoupon = none ∧
    (createCheckoutSession req st sid curl now r).computedTotal.getD 0 ≤ 0 ∧
    (createCheckoutSession req st sid curl now r).state = st := by
  cases hp : req.products with
  | none =>
    rw [createCheckoutSession_none req st sid curl now r hp]
    exact ⟨rfl, le_refl 0, rfl⟩
  | some ps =>
    cases ps with
    | nil =>
      rw [createCheckoutSession_nil req st sid curl now r hp]
      exact ⟨rfl, le_refl 0, rfl⟩
    | cons a as =>
      rw [createCheckoutSession_valid req st sid curl now r (a :: as) hp rfl]
      exact ⟨rfl, le_refl 0, rfl⟩

/-- C7: a request whose products field is not an array, or is an empty
array, is answered 400 with the validation error; the gateway is never
called, nothing is minted, and the store is unchanged. -/
theorem createCheckoutSession_invalid_products (req : CheckoutRequest) (st : Store)
    (sid curl : String) (now : Int) (r : String)
    (h : req.products = none ∨ req.products = some []) :
    (createCheckoutSession req st sid curl now r).response =
      { status := 400, id := none, totalAmount := none
        error := some "Invalid or empty products array" } ∧
    (createCheckoutSession req st sid curl now r).gatewayRequest = none ∧
    (createCheckoutSession req st sid curl now r).mintedCoupon = none ∧
    (createCheckoutSession req st sid curl now r).state = st := by
  rcases h with h | h
  · rw [createCheckoutSession_none req st sid curl now r h]
    exact ⟨rfl, rfl, rfl, rfl⟩
  · rw [createCheckoutSession_nil req st sid curl now r h]
    exact ⟨rfl, rfl, rfl, rfl⟩

/-- Witness for C7 at a request whose products field is not an array. -/
theorem createCheckoutSession_invalid_products_witness :
    (createCheckoutSession exBadReq exStore "cs_1" "http://client" 0 "0.abc123").response =
      { status := 400, id := none, totalAmount := none
        error := some "Invalid or empty products array" } ∧
    (createCheckoutSession exBadReq exStore "cs_1" "http://client" 0 "0.abc123").gatewayRequest
      = none ∧
    (createCheckoutSession exBadReq exStore "cs_1" "http://client" 0 "0.abc123").mintedCoupon
      = none ∧
    (createCheckoutSession exBadReq exStore "cs_1" "http://client" 0 "0.abc123").state = exStore :=
  createCheckoutSession_invalid_products exBadReq exStore "cs_1" "http://client" 0 "0.abc123"
    (Or.inl rfl)

/-- C8: reconciling a session whose payment status is not `"paid"`
changes nothing: the store is returned as it was and no response body is
produced. -/
theorem checkoutSuccess_unpaid_noop (retrieve : String → Option StripeSession)
    (st : Store) (s : String) (sess : StripeSession)
    (hret : retrieve s = some sess) (hnot : sess.payment_status ≠ "paid") :
    checkoutSuccess retrieve st s = (st, none) :=
  checkoutSuccess_unpaid retrieve st s sess hret hnot

/-- Witness for C8 at a concrete unpaid session. -/
theorem checkoutSuccess_unpaid_noop_witness :
    checkoutSuccess exRetrieveUnpaid exStore "cs_1" = (exStore, none) :=
  checkoutSuccess_unpaid_noop exRetrieveUnpaid exStore "cs_1" exUnpaidSession rfl (by decide)

/-- C1: reconciling a paid session carrying a non-empty coupon code
deactivates the coupon matched by code and owner, appends a new order
whose user, line items (frozen metadata snapshot), total
(`amount_total / 100`) and session id are as the session dictates, and
answers 200 with `success: true` and the new order's id. The ledger
invariant (pairwise distinct owners) pins down the matched coupon. -/
theorem checkoutSuccess_paid_reconciliation (retrieve : String → Option StripeSession)
    (st : Store) (s : String) (sess : StripeSession)
    (hret : retrieve s = some sess) (hpaid : sess.payment_status = "paid")
    (hcode : sess.metadata.couponCode ≠ "")
    (hinv : st.coupons.Pairwise (fun a b => a.userId ≠ b.userId)) :
    (∀ c ∈ (checkoutSuccess retrieve st s).1.coupons,
        c.code = sess.metadata.couponCode → c.userId = sess.metadata.userId →
          c.isActive = false) ∧
    (checkoutSuccess retrieve st s).1.orders = st.orders ++
      [{ _id := st.nextOrderId
         user := sess.metadata.userId
         products := sess.metadata.products.map (fun p =>
           { product := p.id, quantity := p.quantity, price := p.price })
         totalAmount := (sess.amount_total : ℚ) / 100
         stripeSessionId := s }] ∧
    (checkoutSuccess retrieve st s).2 =
      some { status := 200, success := true, orderId := some st.nextOrderId
             message := "Payment successful, order created, and coupon deactivated if used." } := by
  rw [checkoutSuccess_paid retrieve st s sess hret hpaid]
  refine ⟨?_, ?_, rfl⟩
  · intro c hc
    rw [if_pos hcode] at hc
    exact deactivateCoupon_inactive sess.metadata.couponCode sess.metadata.userId
      st.coupons hinv c hc
  · simp [reconcileOrder]

/-- Witness for C1 at a concrete paid session with coupon `C10`. -/
theorem checkoutSuccess_paid_reconciliation_witness :
    (∀ c ∈ (checkoutSuccess exRetrieve exStore "cs_1").1.coupons,
        c.code = exSession.metadata.couponCode → c.userId = exSession.metadata.userId →
          c.isActive = false) ∧
    (checkoutSuccess exRetrieve exStore "cs_1").1.orders = exStore.orders ++
      [{ _id := exStore.nextOrderId
         user := exSession.metadata.userId
         products := exSession.metadata.products.map (fun p =>
           { product := p.id, quantity := p.quantity, price := p.price })
         totalAmount := (exSession.amount_total : ℚ) / 100
         stripeSessionId := "cs_1" }] ∧
    (checkoutSuccess exRetrieve exStore "cs_1").2 =
      some { status := 200, success := true, orderId := some exStore.nextOrderId
             message := "Payment successful, order created, and coupon deactivated if used." } :=
  checkoutSuccess_paid_reconciliation exRetrieve exStore "cs_1" exSession rfl rfl
    (by decide) (by simp [exStore])

/-- C2: `checkoutSuccess` is not idempotent. Invoking it twice on the
same paid session id appends two orders: both carry that session id as
their `stripeSessionId`, yet they are distinct records, because no
existing-order check is made before the insert. -/
theorem checkoutSuccess_not_idempotent (retrieve : String → Option StripeSession)
    (st : Store) (s : String) (sess : StripeSession)
    (hret : retrieve s = some sess) (hpaid : sess.payment_status = "paid") :
    (checkoutSuccess retrieve (checkoutSuccess retrieve st s).1 s).1.orders =
      st.orders ++ [reconcileOrder st.nextOrderId sess s,
                    reconcileOrder (st.nextOrderId + 1) sess s] ∧
    (reconcileOrder st.nextOrderId sess s).stripeSessionId = s ∧
    (reconcileOrder (st.nextOrderId + 1) sess s).stripeSessionId = s ∧
    reconcileOrder st.nextOrderId sess s ≠ reconcileOrder (st.nextOrderId + 1) sess s := by
  rw [checkoutSuccess_paid retrieve st s sess hret hpaid]
  rw [checkoutSuccess_paid retrieve _ s sess hret hpaid]
  refine ⟨?_, rfl, rfl, ?_⟩
  · simp
  · intro h
    have h1 := congrArg Order._id h
    simp only [reconcileOrder] at h1
    omega

/-- Witness for C2: running the reconciliation twice on the concrete
paid session duplicates the order. -/
theorem checkoutSuccess_not_idempotent_witness :
    (checkoutSuccess exRetrieve (checkoutSuccess exRetrieve exStore "cs_1").1 "cs_1").1.orders =
      exStore.orders ++ [reconcileOrder exStore.nextOrderId exSession "cs_1",
                         reconcileOrder (exStore.nextOrderId + 1) exSession "cs_1"] ∧
    (reconcileOrder exStore.nextOrderId exSession "cs_1").stripeSessionId = "cs_1" ∧
    (reconcileOrder (exStore.nextOrderId + 1) exSession "cs_1").stripeSessionId = "cs_1" ∧
    reconcileOrder exStore.nextOrderId exSession "cs_1" ≠
      reconcileOrder (exStore.nextOrderId + 1) exSession "cs_1" :=
  checkoutSuccess_not_idempotent exRetrieve exStore "cs_1" exSession rfl rfl

/-- C5: a reward coupon is minted by `createCheckoutSession` exactly
when the computed running total reaches 20000 minor units (a condition
that, per C4, never holds); and when `createNewCoupon` does run, the
prior coupon of that user is deleted first, so the pairwise-distinct
owners invariant is preserved and the user's coupons afterwards are
exactly the fresh one. -/
theorem createCheckoutSession_reward_iff_threshold (req : CheckoutRequest) (st : Store)
    (sid curl : String) (now : Int) (r : String)
    (u : String) (now2 : Int) (r2 : String) (cs : List Coupon)
    (hcs : cs.Pairwise (fun a b => a.userId ≠ b.userId)) :
    ((createCheckoutSession req st sid curl now r).mintedCoupon.isSome ↔
      20000 ≤ (createCheckoutSession req st sid curl now r).computedTotal.getD 0) ∧
    ((createNewCoupon u now2 r2 cs).2).Pairwise (fun a b => a.userId ≠ b.userId) ∧
    ((createNewCoupon u now2 r2 cs).2).filter (fun c => c.userId == u)
      = [(createNewCoupon u now2 r2 cs).1] := by
  refine ⟨?_, createNewCoupon_pairwise u now2 r2 cs hcs,
    createNewCoupon_user_coupons u now2 r2 cs hcs⟩
  cases hp : req.products with
  | none =>
    rw [createCheckoutSession_none req st sid curl now r hp]
    norm_num
  | some ps =>
    cases ps with
    | nil =>
      rw [createCheckoutSession_nil req st sid curl now r hp]
      norm_num
    | cons a as =>
      rw [createCheckoutSession_valid req st sid curl now r (a :: as) hp rfl]
      norm_num

/-- Witness for C5 at concrete request, store, and ledger. -/
theorem createCheckoutSession_reward_iff_threshold_witness :
    ((createCheckoutSession exReq exStore "cs_1" "http://client" 0 "0.abc123").mintedCoupon.isSome ↔
      20000 ≤ (createCheckoutSession exReq exStore "cs_1" "http://client" 0 "0.abc123").computedTotal.getD 0) ∧
    ((createNewCoupon "u1" 0 "0.xyz789" [exCoupon]).2).Pairwise (fun a b => a.userId ≠ b.userId) ∧
    ((createNewCoupon "u1" 0 "0.xyz789" [exCoupon]).2).filter (fun c => c.userId == "u1")
      = [(createNewCoupon "u1" 0 "0.xyz789" [exCoupon]).1] :=
  createCheckoutSession_reward_iff_threshold exReq exStore "cs_1" "http://client" 0 "0.abc123"
    "u1" 0 "0.xyz789" [exCoupon] (by simp)

/-- C6: for a non-empty cart of N line items (with the spec's positive
quantities), exactly N gateway line item descriptors are built and sent,
descriptor i having `unit_amount = round(price_i * 100)` and quantity
the item's own quantity when present, else 1. -/
theorem createCheckoutSession_line_items (req : CheckoutRequest) (st : Store)
    (sid curl : String) (now : Int) (r : String) (ps : List CartItem)
    (hps : req.products = some ps) (hne : ps ≠ [])
    (hq : ∀ p ∈ ps, p.quantity ≠ some 0) :
    ((createCheckoutSession req st sid curl now r).gatewayRequest).map
        SessionCreateParams.line_items = some (ps.map specLineItem) ∧
    (ps.map specLineItem).length = ps.length := by
  have hne2 : ps.isEmpty = false := by
    cases ps with
    | nil => exact absurd rfl hne
    | cons a as => rfl
  rw [createCheckoutSession_valid req st sid curl now r ps hps hne2]
  refine ⟨?_, List.length_map ps specLineItem⟩
  simp [buildLineItems_eq_spec ps hq]

/-- Witness for C6 at the concrete one-item request. -/
theorem createCheckoutSession_line_items_witness :
    ((createCheckoutSession exReq exStore "cs_1" "http://client" 0 "0.abc123").gatewayRequest).map
        SessionCreateParams.line_items = some ([exItem].map specLineItem) ∧
    ([exItem].map specLineItem).length = [exItem].length :=
  createCheckoutSession_line_items exReq exStore "cs_1" "http://client" 0 "0.abc123"
    [exItem] rfl (by simp) (by simp [exItem])

/-- C9 counterexample: the claim says every minted code is `"GIFT"`
followed by exactly 6 base-36 characters (length 10). But
`Math.random()` can return 0.5, whose `toString(36)` is `"0.i"`; the
minted code is then `"GIFTI"`, of length 5, not 10. -/
theorem createNewCoupon_code_not_six :
    (createNewCoupon "u1" 0 (jsToString36 (1/2)) []).1.code = "GIFTI" ∧
    (createNewCoupon "u1" 0 (jsToString36 (1/2)) []).1.code.length ≠ 10 := by
  rw [jsToString36_half]
  decide

/-- C9 (amended): every coupon minted by `createNewCoupon` for user `u`
has code `"GIFT"` followed by the uppercased `substring(2, 8)` of the
random number's base-36 string, which is at most 6 base-36 uppercase
characters (fewer when the expansion terminates early), discount exactly
10 percent, expiration exactly 30 days after creation, and owner `u`. -/
theorem createNewCoupon_contract (u : String) (now : Int) (randStr : String)
    (cs : List Coupon) :
    (createNewCoupon u now randStr cs).1.code
      = "GIFT" ++ toUpperString (substring28 randStr) ∧
    (substring28 randStr).length ≤ 6 ∧
    (createNewCoupon u now randStr cs).1.discountPercentage = 10 ∧
    (createNewCoupon u now randStr cs).1.expirationDate = now + 30 * 24 * 60 * 60 * 1000 ∧
    (createNewCoupon u now randStr cs).1.userId = u :=
  ⟨rfl, substring28_length_le randStr, rfl, rfl, rfl⟩

/-- C10: the metadata snapshot draws each product id from the submitted
item's `_id` field (never its `id` field, absent items giving an
undefined reference), and every order created at reconciliation carries
exactly those `_id`-derived references. -/
theorem snapshot_and_order_use_underscore_id (req : CheckoutRequest) (st : Store)
    (sid curl : String) (now : Int) (r : String) (ps : List CartItem)
    (retrieve : String → Option StripeSession) (st2 : Store) (s : String)
    (sess : StripeSession)
    (hps : req.products = some ps) (hne : ps ≠ [])
    (hret : retrieve s = some sess) (hpaid : sess.payment_status = "paid")
    (hmeta : sess.metadata.products = buildSnapshot ps) :
    ((createCheckoutSession req st sid curl now r).gatewayRequest).map
        (fun g => g.metadata.products.map SnapshotItem.id)
      = some (ps.map CartItem._id) ∧
    ((checkoutSuccess retrieve st2 s).1.orders.getLast?).map
        (fun o => o.products.map OrderItem.product)
      = some (ps.map CartItem._id) := by
  have hne2 : ps.isEmpty = false := by
    cases ps with
    | nil => exact absurd rfl hne
    | cons a as => rfl
  constructor
  · rw [createCheckoutSession_valid req st sid curl now r ps hps hne2]
    simp [buildSnapshot, List.map_map]
  · rw [checkoutSuccess_paid retrieve st2 s sess hret hpaid]
    simp only [List.getLast?_concat, Option.map_some]
    simp [reconcileOrder, hmeta, buildSnapshot, List.map_map]

/-- Witness for C10 at the concrete request and its paid session. -/
theorem snapshot_and_order_use_underscore_id_witness :
    ((createCheckoutSession exReq exStore "cs_1" "http://client" 0 "0.abc123").gatewayRequest).map
        (fun g => g.metadata.products.map SnapshotItem.id)
      = some ([exItem].map CartItem._id) ∧
    ((checkoutSuccess exRetrieve exStore "cs_1").1.orders.getLast?).map
        (fun o => o.products.map OrderItem.product)
      = some ([exItem].map CartItem._id) :=
  snapshot_and_order_use_underscore_id exReq exStore "cs_1" "http://client" 0 "0.abc123"
    [exItem] exRetrieve exStore "cs_1" exSession rfl (by simp) rfl rfl rfl
